import Mathlib

/-!
Shallow embedding of the deprescribing client's orchestration layer.

The definitions below are translated from the frontend sources:
`App.jsx` (workflow state and submission), `PatientForm.jsx` (local
validation), `ResultsDashboard.jsx` (category partitioning, summary
counters, herb-drug interaction rendering, remote PDF export) and the
`TaperModal` component (entity-scoped taper-plan fetching).  JavaScript
strings stay strings, JSON-nullable fields become `Option`, and the
React component lifecycle of the taper modal is modelled as an explicit
step function over traces of focus/close/resolution events.
-/

namespace Deprescribe

/-- One medication entry of the patient form (`PatientForm.jsx`,
`currentMedication` shape): all fields are text inputs. -/
structure Medication where
  generic_name : String
  brand_name : String
  dose : String
  frequency : String
  indication : String
  duration : String
deriving DecidableEq, Repr

/-- One herb entry of the patient form (`PatientForm.jsx`, `currentHerb`
shape). -/
structure Herb where
  generic_name : String
  brand_name : String
  dose : String
  frequency : String
  intended_effect : String
  duration : String
deriving DecidableEq, Repr

/-- The patient form state (`PatientForm.jsx`, `formData`).  Text inputs
are strings (the empty string is the unset value, which is falsy in the
source's `!formData.age` check); the lab fields start as `null`, hence
`Option`. -/
structure FormData where
  age : String
  gender : String
  is_frail : Bool
  cfs_score : String
  life_expectancy : String
  comorbidities : List String
  medications : List Medication
  herbs : List Herb
  serum_creatinine_mg_dl : Option String
  bilirubin_mg_dl : Option String
  inr : Option String
  ast : Option String
  alt : Option String
  sodium : Option String
deriving DecidableEq, Repr

/-- `PatientForm.handleSubmit`: if `!formData.age ||
formData.medications.length === 0` it alerts and returns without calling
`onSubmit`; otherwise it calls `onSubmit(formData)`.  `none` is the
validation-failure path (no submit callback invoked). -/
def handleSubmit (fd : FormData) : Option FormData :=
  if fd.age = "" ∨ fd.medications = [] then none else some fd

/-- One per-medication analysis record of the service response, with the
fields `ResultsDashboard.jsx` reads (`risk_category` is the string the
service sends; the dashboard compares it with `"RED"`, `"YELLOW"`,
`"GREEN"`). -/
structure MedAnalysis where
  name : String
  type : String
  risk_category : String
  risk_score : Nat
  taper_required : Bool
  flags : List String
deriving DecidableEq, Repr

/-- The service's aggregate counts (`results.priority_summary`); each key
may be absent in the JSON, hence `Option` (the source reads
`priority_summary.RED || 0`). -/
structure PrioritySummary where
  RED : Option Nat
  YELLOW : Option Nat
  GREEN : Option Nat
deriving DecidableEq, Repr

/-- One herb-drug interaction record as rendered by
`HerbDrugInteractionsSection`. -/
structure Interaction where
  herb : String
  drug : String
  severity : String
  effect : String
deriving DecidableEq, Repr

/-- The analysis response as consumed by `ResultsDashboard.jsx`
(destructured at the top of the component).  `priority_summary` is
optional because the animation effect guards on
`results?.priority_summary`. -/
structure AnalysisResult where
  medication_analyses : List MedAnalysis
  priority_summary : Option PrioritySummary
  herb_drug_interactions : List Interaction
  clinical_recommendations : List String
  safety_alerts : List String
  global_start_recommendations : List String
deriving DecidableEq, Repr

/-- `ResultsDashboard.jsx` line 101: `medication_analyses?.filter((m) =>
m.risk_category === "RED")`. -/
def redMedications (r : AnalysisResult) : List MedAnalysis :=
  r.medication_analyses.filter (fun m => m.risk_category == "RED")

/-- `ResultsDashboard.jsx` line 103: filter on `"YELLOW"`. -/
def yellowMedications (r : AnalysisResult) : List MedAnalysis :=
  r.medication_analyses.filter (fun m => m.risk_category == "YELLOW")

/-- `ResultsDashboard.jsx` line 105: filter on `"GREEN"`. -/
def greenMedications (r : AnalysisResult) : List MedAnalysis :=
  r.medication_analyses.filter (fun m => m.risk_category == "GREEN")

/-- The `animatedCounts` triple of `ResultsDashboard.jsx`. -/
structure Counts where
  red : Nat
  yellow : Nat
  green : Nat
deriving DecidableEq, Repr

/-- One tick of the counter animation interval (`ResultsDashboard.jsx`
lines 42-52): each component is incremented while strictly below its
target, independently of the others. -/
def counterTick (target c : Counts) : Counts :=
  { red := if c.red < target.red then c.red + 1 else c.red
    yellow := if c.yellow < target.yellow then c.yellow + 1 else c.yellow
    green := if c.green < target.green then c.green + 1 else c.green }

/-- The displayed `animatedCounts` after `n` interval ticks, starting
from the initial `{ red: 0, yellow: 0, green: 0 }`. -/
def animatedCounts (target : Counts) : Nat → Counts
  | 0 => ⟨0, 0, 0⟩
  | n + 1 => counterTick target (animatedCounts target n)

/-- The animation targets read from the service's aggregate counts
(`ResultsDashboard.jsx` lines 37-39: `priority_summary.RED || 0`, etc.). -/
def counterTargets (ps : PrioritySummary) : Counts :=
  ⟨ps.RED.getD 0, ps.YELLOW.getD 0, ps.GREEN.getD 0⟩

/-- The counter effect (`ResultsDashboard.jsx` lines 35-56): it runs only
when `results?.priority_summary` is truthy, and its targets are taken
from `priority_summary` alone. -/
def effectTargets (r : AnalysisResult) : Option Counts :=
  match r.priority_summary with
  | none => none
  | some ps => some (counterTargets ps)

/-- A rendered interaction card of `HerbDrugInteractionsSection`: the
record's fields are displayed verbatim and the severity string selects
the accent styling (the class-name ternary at lines 448-452). -/
structure Card where
  herb : String
  drug : String
  severityLabel : String
  effect : String
  accents : String
deriving DecidableEq, Repr

/-- The accent style chosen from the severity (`HerbDrugInteractionsSection`:
`"Major"` maps to the red classes, `"Moderate"` to amber, anything else
to gray). -/
def severityAccent (s : String) : String :=
  if s = "Major" then "red" else if s = "Moderate" then "amber" else "gray"

/-- Rendering of one interaction record into its card. -/
def interactionCard (i : Interaction) : Card :=
  { herb := i.herb, drug := i.drug, severityLabel := i.severity,
    effect := i.effect, accents := severityAccent i.severity }

/-- `HerbDrugInteractionsSection` maps over `herb_drug_interactions` in
the order received (`herb_drug_interactions.map((interaction, index) =>
...)`); no reordering happens anywhere between the response and the
render. -/
def renderedInteractionCards (r : AnalysisResult) : List Card :=
  r.herb_drug_interactions.map interactionCard

/-- The severity labels in their displayed order. -/
def displayedSeverities (r : AnalysisResult) : List String :=
  (renderedInteractionCards r).map Card.severityLabel

/-- Rank of a severity under the order Major before Moderate before
Minor (smaller rank should come first in a severity-sorted display). -/
def severityRank (s : String) : Nat :=
  if s = "Major" then 0 else if s = "Moderate" then 1 else 2

/-- Whether a list of severity labels is ordered by decreasing severity
(Major before Moderate before Minor). -/
def sortedBySeverity : List String → Bool
  | [] => true
  | [_] => true
  | a :: b :: rest => decide (severityRank a ≤ severityRank b) && sortedBySeverity (b :: rest)

/-- The top-level component state of `App.jsx` (`patientData`, `results`,
`isLoading`, `error`, `showResults`; `showScrollTop` is scroll-position
presentation only and carries no workflow information). -/
structure AppState where
  patientData : Option FormData
  results : Option AnalysisResult
  isLoading : Bool
  error : Option String
  showResults : Bool
deriving DecidableEq, Repr

/-- The initial `useState` values of `App.jsx`. -/
def appInitial : AppState :=
  { patientData := none, results := none, isLoading := false,
    error := none, showResults := false }

/-- The workflow phases named by the specification. -/
inductive Phase
  | Collecting
  | Submitting
  | Analyzed
  | Error
deriving DecidableEq, Repr

/-- The phase of the machine as `App.jsx` renders it: the loading
spinner when `isLoading`, the error banner when `error` is set, the
results view when `showResults && patientData`, otherwise the collecting
form (`!showResults && !isLoading`). -/
def phase (st : AppState) : Phase :=
  if st.isLoading then Phase.Submitting
  else if st.error.isSome then Phase.Error
  else if st.showResults && st.patientData.isSome then Phase.Analyzed
  else Phase.Collecting

/-- Whether the patient form is rendered (`App.jsx` line 123:
`!showResults && !isLoading`). -/
def formVisible (st : AppState) : Bool :=
  !st.showResults && !st.isLoading

/-- Whether `ResultsDashboard` (and hence any detail modal inside it) is
mounted (`App.jsx` line 193: `showResults && patientData`). -/
def dashboardMounted (st : AppState) : Bool :=
  st.showResults && st.patientData.isSome

/-- One click of the form's submit button: `PatientForm.handleSubmit`
validates, and only on success invokes `App.handlePatientSubmit`, whose
synchronous prefix sets `isLoading`, clears `error` and `showResults`,
and issues the `analyzePatient` request.  `pending` counts in-flight
analysis requests; note the source has no guard against an invocation
while a request is already pending. -/
def submitClick (fd : FormData) (st : AppState) (pending : Nat) :
    AppState × Nat :=
  match handleSubmit fd with
  | none => (st, pending)
  | some _ =>
    ({ st with isLoading := true, error := none, showResults := false },
      pending + 1)

/-- Outcome of the `analyzePatient` call. -/
inductive AnalyzeOutcome
  | ok (r : AnalysisResult)
  | fail (msg : String)
deriving DecidableEq, Repr

/-- Resolution of one `handlePatientSubmit` invocation (`App.jsx` lines
35-52): on success it stores the submitted record and the results and
shows them; on failure it stores the error message; `finally` clears
`isLoading` in both cases. -/
def resolveAnalysis (fd : FormData) (st : AppState) :
    AnalyzeOutcome → AppState
  | AnalyzeOutcome.ok r =>
    { st with
        patientData := some fd
        results := some r
        showResults := true
        isLoading := false }
  | AnalyzeOutcome.fail msg =>
    { st with error := some msg, isLoading := false }

/-- `App.handleReset` (lines 55-61): clears `patientData`, `results`,
`showResults` and `error`; it does not touch `isLoading` and does not
discard any in-flight request's eventual resolution. -/
def handleReset (st : AppState) : AppState :=
  { st with
      patientData := none
      results := none
      showResults := false
      error := none }

/-- The dashboard-local state relevant to the remote-rendered export:
the analysis data held by the machine plus the `isPdfGenerating` flag of
`ResultsDashboard.jsx`. -/
structure ExportView where
  app : AppState
  isPdfGenerating : Bool
deriving DecidableEq, Repr

/-- Outcome of the `generate-report-pdf` request. -/
inductive PdfOutcome
  | ok
  | fail (msg : String)
deriving DecidableEq, Repr

/-- `ResultsDashboard.generateProfessionalPDF` (lines 60-90): sets
`isPdfGenerating`, awaits the request; on success it triggers the
browser download (external effect, no state change), on failure it only
logs the error; `finally` clears `isPdfGenerating`.  No other state is
read or written. -/
def generateProfessionalPDF (st : ExportView) (outcome : PdfOutcome) :
    ExportView :=
  let running := { st with isPdfGenerating := true }
  match outcome with
  | PdfOutcome.ok => { running with isPdfGenerating := false }
  | PdfOutcome.fail _ => { running with isPdfGenerating := false }

/-- One step of a tapering schedule as consumed by the taper modal. -/
structure TaperStep where
  week : Nat
  dose : String
  percentage_of_original : Nat
  instructions : String
  monitoring : String
  withdrawal_symptoms_to_watch : List String
deriving DecidableEq, Repr

/-- A taper plan as consumed by the taper modal (the monitoring-schedule
map is a list of period/items pairs). -/
structure TaperPlan where
  drug_class : String
  risk_profile : String
  taper_strategy : String
  total_duration_weeks : Nat
  steps : List TaperStep
  pause_criteria : List String
  reversal_criteria : List String
  monitoring_schedule : List (String × List String)
  patient_education : List String
  success_indicators : List String
deriving DecidableEq, Repr

/-- The request body built by `fetchTaperPlan` in the taper modal. -/
structure TaperRequest where
  drug_name : String
  current_dose : String
  duration_on_medication : String
  patient_cfs_score : Option String
  patient_age : String
  comorbidities : List String
deriving DecidableEq, Repr

/-- JavaScript's `toLowerCase` on the names compared here: lowercase the
string character by character. -/
def lowerName (s : String) : String := ⟨s.data.map Char.toLower⟩

/-- `fetchTaperPlan`'s request construction: it looks the medication up
in the patient record by case-insensitive generic name and falls back to
`'1 tablet'` or `'long_term'` when the medication or a falsy field is
missing (`medData?.dose || '1 tablet'`); `patientData.cfs_score || null`
sends `null` for the empty string. -/
def buildTaperRequest (pd : FormData) (medName : String) : TaperRequest :=
  let medData := pd.medications.find?
    (fun m => lowerName m.generic_name == lowerName medName)
  { drug_name := medName
    current_dose :=
      match medData with
      | none => "1 tablet"
      | some m => if m.dose = "" then "1 tablet" else m.dose
    duration_on_medication :=
      match medData with
      | none => "long_term"
      | some m => if m.duration = "" then "long_term" else m.duration
    patient_cfs_score := if pd.cfs_score = "" then none else some pd.cfs_score
    patient_age := pd.age
    comorbidities := pd.comorbidities }

/-- One outstanding `getTaperPlan` call: its issue number, the modal
mount (component instance) whose effect issued it, and its payload. -/
structure TaperReq where
  id : Nat
  mount : Nat
  payload : TaperRequest
deriving DecidableEq, Repr

/-- The dashboard's taper-detail state: `openMed` is `selectedMedication`
while `showTaperModal` is set; the `modal*` fields are the mounted
`TaperModal` instance's `useState` cells (`taperPlan`, `loading`,
`error`, `isAiGenerated`); `mount` numbers component instances, `nextId`
numbers issued requests, and `inflight` is the list of unresolved
`getTaperPlan` calls. -/
structure TaperView where
  pd : FormData
  openMed : Option String
  mount : Nat
  modalPlan : Option TaperPlan
  modalLoading : Bool
  modalError : Option String
  modalAi : Bool
  nextId : Nat
  inflight : List TaperReq
deriving DecidableEq, Repr

/-- The dashboard before any taper detail was opened. -/
def taperInitial (pd : FormData) : TaperView :=
  { pd := pd, openMed := none, mount := 0, modalPlan := none,
    modalLoading := true, modalError := none, modalAi := false,
    nextId := 0, inflight := [] }

/-- Events of the taper-detail flow: `focus` is `handleViewTaper` (open
the modal on a medication), `close` is the modal's `onClose`, and the
resolve events are the settling of a `getTaperPlan` promise identified
by its issue number. -/
inductive TaperEv
  | focus (medName : String)
  | close
  | resolveOk (id : Nat) (plan : TaperPlan)
  | resolveErr (id : Nat) (msg : String)
deriving DecidableEq, Repr

/-- One step of the taper-detail flow, following the React semantics of
the source: `handleViewTaper` mounts a fresh `TaperModal` when none is
shown (fresh `useState` cells, effect runs, one request issued); calling
it again with the same medication leaves the effect dependencies
`[medication, patientData]` unchanged, so nothing re-runs; with a
different medication the same instance's effect re-runs (`setLoading
(true)` and a new request, the old plan and error cells untouched).
`onClose` unmounts the instance.  A promise resolution applies its
`setTaperPlan`/`setIsAiGenerated`/`setError`/`setLoading` calls exactly
when its issuing instance is still the mounted one — the component has
no generation counter, so any live instance's resolution is applied in
arrival order. -/
def taperStep (st : TaperView) : TaperEv → TaperView
  | TaperEv.focus m =>
    match st.openMed with
    | none =>
      { st with
          openMed := some m
          mount := st.mount + 1
          modalPlan := none
          modalLoading := true
          modalError := none
          modalAi := false
          nextId := st.nextId + 1
          inflight := st.inflight ++
            [⟨st.nextId, st.mount + 1, buildTaperRequest st.pd m⟩] }
    | some mPrev =>
      if mPrev = m then st
      else
        { st with
            openMed := some m
            modalLoading := true
            nextId := st.nextId + 1
            inflight := st.inflight ++
              [⟨st.nextId, st.mount, buildTaperRequest st.pd m⟩] }
  | TaperEv.close => { st with openMed := none }
  | TaperEv.resolveOk i plan =>
    match st.inflight.find? (fun q => q.id == i) with
    | none => st
    | some q =>
      let rest := st.inflight.filter (fun q2 => !(q2.id == i))
      if st.openMed.isSome && (q.mount == st.mount) then
        { st with
            inflight := rest
            modalPlan := some plan
            modalAi := decide (plan.steps.length > 4)
            modalLoading := false }
      else
        { st with inflight := rest }
  | TaperEv.resolveErr i msg =>
    match st.inflight.find? (fun q => q.id == i) with
    | none => st
    | some q =>
      let rest := st.inflight.filter (fun q2 => !(q2.id == i))
      if st.openMed.isSome && (q.mount == st.mount) then
        { st with
            inflight := rest
            modalError := some msg
            modalLoading := false }
      else
        { st with inflight := rest }

/-- A whole interaction trace of the taper-detail flow. -/
def runTaper (st : TaperView) (evs : List TaperEv) : TaperView :=
  evs.foldl taperStep st

/-- A concrete valid patient form: age filled in and one medication. -/
def fdValid : FormData :=
  { age := "75", gender := "female", is_frail := false, cfs_score := ""
    life_expectancy := "2-5_years", comorbidities := []
    medications := [⟨"Diazepam", "", "5mg", "daily", "", "long_term"⟩]
    herbs := [], serum_creatinine_mg_dl := none, bilirubin_mg_dl := none
    inr := none, ast := none, alt := none, sodium := none }

/-- The same form with the age field cleared (the unset text input). -/
def fdNoAge : FormData := { fdValid with age := "" }

/-- A RED per-medication analysis. -/
def mRed : MedAnalysis :=
  { name := "Diazepam", type := "Benzodiazepine", risk_category := "RED"
    risk_score := 9, taper_required := true, flags := ["long-term use"] }

/-- A GREEN per-medication analysis. -/
def mGreen : MedAnalysis :=
  { name := "Metformin", type := "Biguanide", risk_category := "GREEN"
    risk_score := 2, taper_required := false, flags := [] }

/-- An analysis response with one RED and one GREEN medication and
matching aggregate counts. -/
def resTwoMeds : AnalysisResult :=
  { medication_analyses := [mRed, mGreen]
    priority_summary := some ⟨some 1, some 0, some 1⟩
    herb_drug_interactions := [], clinical_recommendations := []
    safety_alerts := [], global_start_recommendations := [] }

/-- Aggregate counts that disagree with an empty medication list. -/
def psMismatch : PrioritySummary := ⟨some 5, some 0, some 0⟩

/-- An analysis response whose service-sent aggregate counts (5 RED)
disagree with its medication-analysis list (empty). -/
def resMismatch : AnalysisResult :=
  { medication_analyses := [], priority_summary := some psMismatch
    herb_drug_interactions := [], clinical_recommendations := []
    safety_alerts := [], global_start_recommendations := [] }

/-- A Minor-severity herb-drug interaction record. -/
def iMinor : Interaction :=
  ⟨"ginkgo", "aspirin", "Minor", "increased bleeding risk"⟩

/-- A Major-severity herb-drug interaction record. -/
def iMajor : Interaction :=
  ⟨"st johns wort", "warfarin", "Major", "reduced anticoagulant effect"⟩

/-- An analysis response whose interaction list arrives with the Minor
record before the Major one. -/
def resInteractions : AnalysisResult :=
  { medication_analyses := [], priority_summary := none
    herb_drug_interactions := [iMinor, iMajor]
    clinical_recommendations := [], safety_alerts := []
    global_start_recommendations := [] }

/-- A three-step taper plan (at most 4 steps: no AI badge). -/
def planThreeSteps : TaperPlan :=
  { drug_class := "benzodiazepine", risk_profile := "high"
    taper_strategy := "gradual", total_duration_weeks := 6
    steps := [⟨1, "4mg", 75, "reduce", "weekly review", []⟩,
      ⟨3, "2mg", 50, "reduce", "weekly review", []⟩,
      ⟨5, "1mg", 25, "stop", "weekly review", []⟩]
    pause_criteria := [], reversal_criteria := []
    monitoring_schedule := [], patient_education := []
    success_indicators := [] }

/-- A six-step taper plan (more than 4 steps: AI badge shown). -/
def planSixSteps : TaperPlan :=
  { planThreeSteps with
      drug_class := "opioid"
      steps := [⟨1, "90mg", 90, "reduce", "daily review", []⟩,
        ⟨2, "75mg", 75, "reduce", "daily review", []⟩,
        ⟨3, "60mg", 60, "reduce", "daily review", []⟩,
        ⟨4, "45mg", 45, "reduce", "daily review", []⟩,
        ⟨5, "30mg", 30, "reduce", "daily review", []⟩,
        ⟨6, "15mg", 15, "stop", "daily review", []⟩] }

/-- A race trace: the taper detail is retargeted from alprazolam to
diazepam before either request resolves; the newer (diazepam) request
resolves first and the superseded (alprazolam) one arrives last. -/
def staleTrace : List TaperEv :=
  [TaperEv.focus "Alprazolam", TaperEv.focus "Diazepam",
    TaperEv.resolveOk 1 planSixSteps, TaperEv.resolveOk 0 planThreeSteps]

/-- A refocus trace: open the diazepam detail, let it resolve, close it,
and open the same entity again. -/
def refocusTrace : List TaperEv :=
  [TaperEv.focus "Diazepam", TaperEv.resolveOk 0 planSixSteps,
    TaperEv.close, TaperEv.focus "Diazepam"]

/-- The dashboard after one focus: a single outstanding request. -/
def stOneInflight : TaperView :=
  runTaper (taperInitial fdValid) [TaperEv.focus "Diazepam"]

/-- The dashboard after retargeting the open detail: two outstanding
requests of the same (still mounted) modal instance. -/
def stTwoInflight : TaperView :=
  runTaper (taperInitial fdValid)
    [TaperEv.focus "Alprazolam", TaperEv.focus "Diazepam"]

/-- The app state right after a valid submission: an analysis request is
in flight (Submitting). -/
def stSubmitting : AppState := (submitClick fdValid appInitial 0).1

/-- The app state after the analysis resolved successfully (Analyzed). -/
def stAnalyzed : AppState :=
  resolveAnalysis fdValid appInitial (AnalyzeOutcome.ok resTwoMeds)

/-- The dashboard's export view in the Analyzed state, export idle. -/
def exAnalyzed : ExportView := ⟨stAnalyzed, false⟩

/-- Splitting a list over the three category filters loses no length
when every element carries one of the three categories. -/
theorem three_filter_length (l : List MedAnalysis)
    (h : ∀ m ∈ l, m.risk_category = "RED" ∨ m.risk_category = "YELLOW" ∨
      m.risk_category = "GREEN") :
    (l.filter (fun m => m.risk_category == "RED")).length +
      (l.filter (fun m => m.risk_category == "YELLOW")).length +
      (l.filter (fun m => m.risk_category == "GREEN")).length = l.length := by
  induction l with
  | nil => simp
  | cons a t ih =>
    have ht : ∀ m ∈ t, m.risk_category = "RED" ∨ m.risk_category = "YELLOW" ∨
        m.risk_category = "GREEN" :=
      fun m hm => h m (List.mem_cons_of_mem a hm)
    have ha := h a (List.mem_cons_self a t)
    have hsum := ih ht
    rcases ha with h1 | h1 | h1 <;> simp [List.filter_cons, h1] <;> omega

/-- C1: for every analysis result whose medications all carry one of the
three risk categories, the RED/YELLOW/GREEN lists of the dashboard are
order-preserving sublists of `medication_analyses`, pairwise disjoint,
jointly cover every element, and their lengths sum to the original
length — the partition reconstructs the list exactly. -/
theorem claim_C1 (r : AnalysisResult)
    (h : ∀ m ∈ r.medication_analyses, m.risk_category = "RED" ∨
      m.risk_category = "YELLOW" ∨ m.risk_category = "GREEN") :
    (redMedications r).Sublist r.medication_analyses ∧
    (yellowMedications r).Sublist r.medication_analyses ∧
    (greenMedications r).Sublist r.medication_analyses ∧
    (∀ m, ¬(m ∈ redMedications r ∧ m ∈ yellowMedications r)) ∧
    (∀ m, ¬(m ∈ redMedications r ∧ m ∈ greenMedications r)) ∧
    (∀ m, ¬(m ∈ yellowMedications r ∧ m ∈ greenMedications r)) ∧
    (∀ m ∈ r.medication_analyses,
      m ∈ redMedications r ∨ m ∈ yellowMedications r ∨ m ∈ greenMedications r) ∧
    (redMedications r).length + (yellowMedications r).length +
      (greenMedications r).length = r.medication_analyses.length := by
  refine ⟨List.filter_sublist _, List.filter_sublist _, List.filter_sublist _,
    ?_, ?_, ?_, ?_, three_filter_length _ h⟩
  · rintro m ⟨h1, h2⟩
    have e1 := (List.mem_filter.mp h1).2
    have e2 := (List.mem_filter.mp h2).2
    simp at e1 e2
    rw [e1] at e2
    exact absurd e2 (by decide)
  · rintro m ⟨h1, h2⟩
    have e1 := (List.mem_filter.mp h1).2
    have e2 := (List.mem_filter.mp h2).2
    simp at e1 e2
    rw [e1] at e2
    exact absurd e2 (by decide)
  · rintro m ⟨h1, h2⟩
    have e1 := (List.mem_filter.mp h1).2
    have e2 := (List.mem_filter.mp h2).2
    simp at e1 e2
    rw [e1] at e2
    exact absurd e2 (by decide)
  · intro m hm
    rcases h m hm with h1 | h1 | h1
    · exact Or.inl (List.mem_filter.mpr ⟨hm, by simp [h1]⟩)
    · exact Or.inr (Or.inl (List.mem_filter.mpr ⟨hm, by simp [h1]⟩))
    · exact Or.inr (Or.inr (List.mem_filter.mpr ⟨hm, by simp [h1]⟩))

/-- Witness for C1 on a concrete two-medication result. -/
theorem claim_C1_witness :
    (∀ m ∈ resTwoMeds.medication_analyses, m.risk_category = "RED" ∨
      m.risk_category = "YELLOW" ∨ m.risk_category = "GREEN") ∧
    ((redMedications resTwoMeds).Sublist resTwoMeds.medication_analyses ∧
    (yellowMedications resTwoMeds).Sublist resTwoMeds.medication_analyses ∧
    (greenMedications resTwoMeds).Sublist resTwoMeds.medication_analyses ∧
    (∀ m, ¬(m ∈ redMedications resTwoMeds ∧ m ∈ yellowMedications resTwoMeds)) ∧
    (∀ m, ¬(m ∈ redMedications resTwoMeds ∧ m ∈ greenMedications resTwoMeds)) ∧
    (∀ m, ¬(m ∈ yellowMedications resTwoMeds ∧ m ∈ greenMedications resTwoMeds)) ∧
    (∀ m ∈ resTwoMeds.medication_analyses, m ∈ redMedications resTwoMeds ∨
      m ∈ yellowMedications resTwoMeds ∨ m ∈ greenMedications resTwoMeds) ∧
    (redMedications resTwoMeds).length + (yellowMedications resTwoMeds).length +
      (greenMedications resTwoMeds).length =
      resTwoMeds.medication_analyses.length) :=
  ⟨by decide, claim_C1 resTwoMeds (by decide)⟩

/-- The animated counter is the pointwise minimum of the tick count and
the target. -/
theorem animatedCounts_eq (t : Counts) (n : Nat) :
    animatedCounts t n = ⟨min n t.red, min n t.yellow, min n t.green⟩ := by
  induction n with
  | zero => simp [animatedCounts]
  | succ k ih =>
    rw [animatedCounts, ih]
    simp only [counterTick, Counts.mk.injEq]
    refine ⟨?_, ?_, ?_⟩ <;> split <;> omega

/-- C2 fails on the code: the displayed counter targets are read from
the service's `priority_summary` (here 5 RED), not from the partitioned
lists (here 0 RED medications), so when the two disagree the displayed
counters follow the service counts, not the partition-derived lengths. -/
theorem claim_C2_counterexample :
    effectTargets resMismatch = some ⟨5, 0, 0⟩ ∧
    (redMedications resMismatch).length = 0 ∧
    effectTargets resMismatch ≠ some ⟨(redMedications resMismatch).length,
      (yellowMedications resMismatch).length,
      (greenMedications resMismatch).length⟩ := by
  decide

/-- C2 amended: the animated-counter targets are exactly the
service-supplied `priority_summary` counts (missing keys defaulting to
0); the animation settles at those targets after enough ticks; and the
targets are invariant under any change to the medication-analysis list,
so the partition-derived lengths never influence the displayed counters. -/
theorem claim_C2 (r : AnalysisResult) (ps : PrioritySummary) (n : Nat)
    (h : r.priority_summary = some ps)
    (hn : (counterTargets ps).red ≤ n ∧ (counterTargets ps).yellow ≤ n ∧
      (counterTargets ps).green ≤ n) :
    effectTargets r = some (counterTargets ps) ∧
    animatedCounts (counterTargets ps) n = counterTargets ps ∧
    (∀ l, effectTargets { r with medication_analyses := l } = effectTargets r) := by
  refine ⟨by simp [effectTargets, h], ?_, fun l => rfl⟩
  rw [animatedCounts_eq]
  obtain ⟨h1, h2, h3⟩ := hn
  simp [Nat.min_eq_right h1, Nat.min_eq_right h2, Nat.min_eq_right h3]

/-- Witness for C2 (amended) on the mismatching concrete result. -/
theorem claim_C2_witness :
    resMismatch.priority_summary = some psMismatch ∧
    ((counterTargets psMismatch).red ≤ 5 ∧ (counterTargets psMismatch).yellow ≤ 5 ∧
      (counterTargets psMismatch).green ≤ 5) ∧
    (effectTargets resMismatch = some (counterTargets psMismatch) ∧
      animatedCounts (counterTargets psMismatch) 5 = counterTargets psMismatch ∧
      (∀ l, effectTargets { resMismatch with medication_analyses := l } =
        effectTargets resMismatch)) :=
  ⟨rfl, by decide, claim_C2 resMismatch psMismatch 5 rfl (by decide)⟩

/-- C3: when the age field is unset or the medication list is empty, the
form's submit handler fails validation and never invokes the submit
callback, so a submit click leaves the app state and the number of
in-flight analysis requests unchanged (in particular the machine stays
in its current, Collecting, phase). -/
theorem claim_C3 (fd : FormData) (st : AppState) (p : Nat)
    (h : fd.age = "" ∨ fd.medications = []) :
    handleSubmit fd = none ∧ submitClick fd st p = (st, p) ∧
    phase (submitClick fd st p).1 = phase st := by
  have h1 : handleSubmit fd = none := by simp [handleSubmit, h]
  exact ⟨h1, by simp [submitClick, h1], by simp [submitClick, h1]⟩

/-- Witness for C3: submitting the form with the age cleared. -/
theorem claim_C3_witness :
    (fdNoAge.age = "" ∨ fdNoAge.medications = []) ∧
    (handleSubmit fdNoAge = none ∧
      submitClick fdNoAge appInitial 0 = (appInitial, 0) ∧
      phase (submitClick fdNoAge appInitial 0).1 = phase appInitial) :=
  ⟨Or.inl rfl, claim_C3 fdNoAge appInitial 0 (Or.inl rfl)⟩

/-- C4 fails on the code: `handlePatientSubmit` has no in-flight guard,
so invoking submit twice with a valid record before the first resolution
leaves two analysis requests in flight, and no error of any kind (let
alone a ConflictError) is raised on the second call. -/
theorem claim_C4_counterexample :
    (submitClick fdValid (submitClick fdValid appInitial 0).1
      (submitClick fdValid appInitial 0).2).2 = 2 ∧
    (submitClick fdValid (submitClick fdValid appInitial 0).1
      (submitClick fdValid appInitial 0).2).1.error = none := by
  decide

/-- C4 amended: every submit invocation with a valid record
unconditionally issues one more analysis request and moves the machine
to Submitting, with no conflict check; only the rendering guard
(`!showResults && !isLoading`) hides the form while a request is in
flight. -/
theorem claim_C4 (fd : FormData) (st : AppState) (p : Nat)
    (h : ¬(fd.age = "" ∨ fd.medications = [])) :
    submitClick fd st p =
      ({ st with isLoading := true, error := none, showResults := false }, p + 1) ∧
    formVisible (submitClick fd st p).1 = false := by
  have h1 : handleSubmit fd = some fd := by simp [handleSubmit, h]
  refine ⟨by simp [submitClick, h1], ?_⟩
  simp [submitClick, h1, formVisible]

/-- Witness for C4 (amended) on the concrete valid record. -/
theorem claim_C4_witness :
    ¬(fdValid.age = "" ∨ fdValid.medications = []) ∧
    (submitClick fdValid appInitial 0 =
      ({ appInitial with isLoading := true, error := none, showResults := false },
        0 + 1) ∧
      formVisible (submitClick fdValid appInitial 0).1 = false) :=
  ⟨by decide, claim_C4 fdValid appInitial 0 (by decide)⟩

/-- C7: a failed remote-rendered export leaves the whole app state — in
particular the stored analysis result and the Analyzed phase — exactly
as it was; only the `isPdfGenerating` affordance is reset to ready. -/
theorem claim_C7 (st : ExportView) (msg : String) (r : AnalysisResult)
    (h : st.app.results = some r) (hph : phase st.app = Phase.Analyzed) :
    (generateProfessionalPDF st (PdfOutcome.fail msg)).app = st.app ∧
    (generateProfessionalPDF st (PdfOutcome.fail msg)).app.results = some r ∧
    phase (generateProfessionalPDF st (PdfOutcome.fail msg)).app = Phase.Analyzed ∧
    (generateProfessionalPDF st (PdfOutcome.fail msg)).isPdfGenerating = false := by
  exact ⟨rfl, h, hph, rfl⟩

/-- Witness for C7: a failing export from the concrete Analyzed state. -/
theorem claim_C7_witness :
    exAnalyzed.app.results = some resTwoMeds ∧
    phase exAnalyzed.app = Phase.Analyzed ∧
    ((generateProfessionalPDF exAnalyzed (PdfOutcome.fail "network error")).app =
        exAnalyzed.app ∧
      (generateProfessionalPDF exAnalyzed (PdfOutcome.fail "network error")).app.results =
        some resTwoMeds ∧
      phase (generateProfessionalPDF exAnalyzed (PdfOutcome.fail "network error")).app =
        Phase.Analyzed ∧
      (generateProfessionalPDF exAnalyzed (PdfOutcome.fail "network error")).isPdfGenerating =
        false) :=
  ⟨rfl, by decide, claim_C7 exAnalyzed "network error" resTwoMeds rfl (by decide)⟩

/-- C8 fails on the code: `handleReset` never touches `isLoading`, so a
reset issued while an analysis request is in flight (Submitting) leaves
the machine in Submitting, not Collecting. -/
theorem claim_C8_counterexample :
    phase stSubmitting = Phase.Submitting ∧
    phase (handleReset stSubmitting) = Phase.Submitting ∧
    phase (handleReset stSubmitting) ≠ Phase.Collecting := by
  decide

/-- C8 amended: `handleReset` synchronously clears the patient record,
the analysis result and the error, and unmounts the results dashboard
(hence every detail modal); it leaves `isLoading` unchanged, so it
yields Collecting exactly when no analysis request is in flight. -/
theorem claim_C8 (st : AppState) :
    (handleReset st).patientData = none ∧
    (handleReset st).results = none ∧
    (handleReset st).error = none ∧
    (handleReset st).isLoading = st.isLoading ∧
    dashboardMounted (handleReset st) = false ∧
    (st.isLoading = false → phase (handleReset st) = Phase.Collecting) := by
  refine ⟨rfl, rfl, rfl, rfl, rfl, fun h => ?_⟩
  simp [handleReset, phase, h]

/-- Witness for C8 (amended): resetting from the concrete Analyzed
state returns to Collecting. -/
theorem claim_C8_witness :
    stAnalyzed.isLoading = false ∧
    phase (handleReset stAnalyzed) = Phase.Collecting :=
  ⟨rfl, (claim_C8 stAnalyzed).2.2.2.2.2 rfl⟩

/-- C9 fails on the code: the interaction list is rendered in the order
received, with no severity sort — a Minor interaction arriving before a
Major one is displayed before it. -/
theorem claim_C9_counterexample :
    displayedSeverities resInteractions = ["Minor", "Major"] ∧
    sortedBySeverity (displayedSeverities resInteractions) = false := by
  decide

/-- C9 amended: the displayed interaction cards are an unmodified
pass-through of the records in their original order — every field is
shown verbatim and the severity only selects the accent styling; no
reordering (in particular no severity sort) is applied. -/
theorem claim_C9 (r : AnalysisResult) :
    (renderedInteractionCards r).map Card.herb =
      r.herb_drug_interactions.map Interaction.herb ∧
    (renderedInteractionCards r).map Card.drug =
      r.herb_drug_interactions.map Interaction.drug ∧
    (renderedInteractionCards r).map Card.severityLabel =
      r.herb_drug_interactions.map Interaction.severity ∧
    (renderedInteractionCards r).map Card.effect =
      r.herb_drug_interactions.map Interaction.effect ∧
    (renderedInteractionCards r).map Card.accents =
      r.herb_drug_interactions.map (fun i => severityAccent i.severity) := by
  refine ⟨?_, ?_, ?_, ?_, ?_⟩ <;>
    simp [renderedInteractionCards, List.map_map, interactionCard, Function.comp]

/-- C5 fails on the code: the taper modal has no generation counter, so
after retargeting the detail from Alprazolam (request 0) to Diazepam
(request 1), a late arrival of the superseded request 0 overwrites the
already-displayed request-1 plan — the displayed state ends on the
stale race winner, not on the most recently requested data. -/
theorem claim_C5_counterexample :
    (runTaper (taperInitial fdValid) staleTrace).openMed = some "Diazepam" ∧
    (runTaper (taperInitial fdValid) staleTrace).modalPlan = some planThreeSteps ∧
    planThreeSteps ≠ planSixSteps := by
  decide

/-- C5 amended: resolutions are applied in arrival order with no
staleness check — any resolution of a request issued by the currently
mounted modal instance updates the displayed plan, even if a newer
request for the same view is still outstanding; only resolutions
belonging to an unmounted instance are dropped. -/
theorem claim_C5 (st : TaperView) (i : Nat) (plan : TaperPlan) (q : TaperReq)
    (hq : st.inflight.find? (fun q2 => q2.id == i) = some q)
    (hopen : st.openMed.isSome = true)
    (hmount : q.mount = st.mount) :
    (taperStep st (TaperEv.resolveOk i plan)).modalPlan = some plan ∧
    (taperStep st (TaperEv.resolveOk i plan)).modalLoading = false := by
  simp [taperStep, hq, hopen, hmount]

/-- Witness for C5 (amended): the superseded Alprazolam request of the
retargeted modal still lands its plan. -/
theorem claim_C5_witness :
    stTwoInflight.inflight.find? (fun q2 => q2.id == 0) =
      some ⟨0, 1, buildTaperRequest fdValid "Alprazolam"⟩ ∧
    stTwoInflight.openMed.isSome = true ∧
    (TaperReq.mount ⟨0, 1, buildTaperRequest fdValid "Alprazolam"⟩) =
      stTwoInflight.mount ∧
    ((taperStep stTwoInflight (TaperEv.resolveOk 0 planThreeSteps)).modalPlan =
        some planThreeSteps ∧
      (taperStep stTwoInflight (TaperEv.resolveOk 0 planThreeSteps)).modalLoading =
        false) :=
  ⟨by decide, by decide, by decide,
    claim_C5 stTwoInflight 0 planThreeSteps
      ⟨0, 1, buildTaperRequest fdValid "Alprazolam"⟩
      (by decide) (by decide) (by decide)⟩

/-- C6 fails on the code: the modal's fetch state lives in the component
instance and dies with it, so closing a resolved detail and focusing the
same entity again mounts a fresh instance that issues a second request
(two requests ever issued) and starts with no plan, in Loading — nothing
is reused. -/
theorem claim_C6_counterexample :
    (runTaper (taperInitial fdValid) refocusTrace).nextId = 2 ∧
    (runTaper (taperInitial fdValid) refocusTrace).modalPlan = none ∧
    (runTaper (taperInitial fdValid) refocusTrace).modalLoading = true := by
  decide

/-- C6 amended: focusing the same entity twice while its detail view
stays mounted is idempotent (the second focus changes nothing and issues
no request), but re-focusing after the view was closed always issues a
fresh request — there is no cross-mount cache of resolved cells. -/
theorem claim_C6 (st : TaperView) (m : String) :
    taperStep (taperStep st (TaperEv.focus m)) (TaperEv.focus m) =
      taperStep st (TaperEv.focus m) ∧
    (taperStep (taperStep st TaperEv.close) (TaperEv.focus m)).nextId =
      st.nextId + 1 := by
  constructor
  · cases hst : st.openMed with
    | none => simp [taperStep, hst]
    | some mPrev =>
      by_cases hm : mPrev = m
      · subst hm
        simp [taperStep, hst]
      · simp [taperStep, hst, hm]
  · simp [taperStep]

/-- C10: after a successful taper-plan resolution that reaches the
mounted modal, the AI-personalized marking holds exactly when the plan
has strictly more than 4 steps. -/
theorem claim_C10 (st : TaperView) (i : Nat) (plan : TaperPlan) (q : TaperReq)
    (hq : st.inflight.find? (fun q2 => q2.id == i) = some q)
    (hopen : st.openMed.isSome = true)
    (hmount : q.mount = st.mount) :
    ((taperStep st (TaperEv.resolveOk i plan)).modalAi = true ↔
      plan.steps.length > 4) := by
  simp [taperStep, hq, hopen, hmount]

/-- Witness for C10: a six-step plan resolving into the open Diazepam
detail is marked AI-personalized. -/
theorem claim_C10_witness :
    stOneInflight.inflight.find? (fun q2 => q2.id == 0) =
      some ⟨0, 1, buildTaperRequest fdValid "Diazepam"⟩ ∧
    stOneInflight.openMed.isSome = true ∧
    (TaperReq.mount ⟨0, 1, buildTaperRequest fdValid "Diazepam"⟩) =
      stOneInflight.mount ∧
    ((taperStep stOneInflight (TaperEv.resolveOk 0 planSixSteps)).modalAi = true ↔
      planSixSteps.steps.length > 4) :=
  ⟨by decide, by decide, by decide,
    claim_C10 stOneInflight 0 planSixSteps
      ⟨0, 1, buildTaperRequest fdValid "Diazepam"⟩
      (by decide) (by decide) (by decide)⟩

end Deprescribe
